import Mathlib

/-
Verification of the puml2csv tool (src/tool/puml2csv.py): a script that parses a
PlantUML entity-relationship diagram and generates CSV files with synthetic data.

Shallow embedding conventions:
* Python dicts (insertion ordered) are association lists `List (String × α)`
  with first-match lookup (`dictGet`) and in-place update (`dictSet`).
* Randomness is an oracle: every call site of `random.randint` / `random.choice`
  receives a natural number from an oracle function and maps it into the right
  range (`randint`, `choiceD`), exactly as the library call constrains its result.
* Fallible Python operations are `Except String`: `entities[k]` on a missing key
  (KeyError) and the references to the undefined globals `PREFERRED_TITLES` /
  `PERSON_TYPES` (NameError).
* Strings are Lean `String` (a wrapper around `List Char` in this toolchain);
  the Python string methods are modelled by character-list helpers
  (`strLower`, `strTrim`, `strEnds`, `strDropLast`, `splitWs`, `hasSub`).
-/

-- ---------------- basic data ----------------

inductive Value where
  | int : Int → Value
  | str : String → Value
deriving DecidableEq

def Value.pyStr : Value → String
  | .int n => toString n
  | .str s => s

structure Edge where
  left : String
  connector : String
  right : String
deriving DecidableEq

structure PersonRec where
  person_id : Nat
  firstname : String
  lastname : String
  other_name : String
  orcid : String
deriving DecidableEq

structure CsvFile where
  name : String
  header : List String
  rows : List (List Value)
deriving DecidableEq

-- ---------------- dict (Python dict as assoc list) ----------------

def dictGet {α : Type} : List (String × α) → String → Option α
  | [], _ => none
  | (k, v) :: rest, key => if k == key then some v else dictGet rest key

def dictSet {α : Type} : List (String × α) → String → α → List (String × α)
  | [], key, v => [(key, v)]
  | (k, w) :: rest, key, v =>
      if k == key then (k, v) :: rest else (k, w) :: dictSet rest key v

-- ---------------- list / string helpers ----------------

/-- Substring test over char lists, mirroring Python's `needle in hay`. -/
def listHasSub (needle : List Char) : List Char → Bool
  | [] => needle.isEmpty
  | c :: t => needle.isPrefixOf (c :: t) || listHasSub needle t

def hasSub (needle hay : String) : Bool :=
  listHasSub needle.data hay.data

/-- `str.lower()` over the character list (kernel-computable form). -/
def strLower (s : String) : String :=
  String.mk (s.data.map Char.toLower)

/-- `str.endswith(suffix)` over the character list. -/
def strEnds (s suffix : String) : Bool :=
  suffix.data.isSuffixOf s.data

/-- `s[:-n]`: drop the last `n` characters. -/
def strDropLast (s : String) (n : Nat) : String :=
  String.mk (s.data.take (s.data.length - n))

def trimChars (cs : List Char) : List Char :=
  (((cs.dropWhile Char.isWhitespace).reverse).dropWhile Char.isWhitespace).reverse

/-- `str.strip()` over the character list. -/
def strTrim (s : String) : String :=
  String.mk (trimChars s.data)

/-- Split on whitespace, dropping empty pieces: the effect of
`re.split` on whitespace over a stripped line. -/
def wsSplitGo : List Char → List Char → List (List Char)
  | cur, [] => [cur.reverse]
  | cur, ch :: t =>
    if ch.isWhitespace then cur.reverse :: wsSplitGo [] t else wsSplitGo (ch :: cur) t

def splitWs (s : String) : List String :=
  ((wsSplitGo [] s.data).map String.mk).filter (fun w => w != "")

/-- Python `int(x)` applied to a cell value: identity on ints, parse on strings
(approximated by `String.toInt?` on the trimmed string); `none` is ValueError. -/
def pyInt : Value → Option Int
  | .int n => some n
  | .str s => (strTrim s).toInt?

/-- `random.choice(xs)` given an oracle value `r`: a member of `xs` when `xs` is
nonempty (the only way the script calls it). -/
def choiceD {α : Type} (r : Nat) (xs : List α) (d : α) : α :=
  xs.getD (r % xs.length) d

/-- `random.randint(lo, hi)` given an oracle value `r`: a value in `[lo, hi]`
when `lo ≤ hi` (all call sites satisfy this). -/
def randint (r lo hi : Nat) : Nat :=
  lo + r % (hi + 1 - lo)

/-- First index satisfying `p`, mirroring Python `list.index` via first match. -/
def findIdxO {α : Type} (p : α → Bool) : List α → Option Nat
  | [] => none
  | a :: as => if p a then some 0 else (findIdxO p as).map (· + 1)

/-- Sequential `map` in the `Except` monad, mirroring a Python loop that stops
at the first raised exception. -/
def mapExcept {α β : Type} (f : α → Except String β) : List α → Except String (List β)
  | [] => .ok []
  | a :: as =>
    match f a with
    | .error e => .error e
    | .ok b =>
      match mapExcept f as with
      | .error e => .error e
      | .ok bs => .ok (b :: bs)

/-- Sequential fold in the `Except` monad (a Python `for` loop mutating state). -/
def foldExcept {σ α : Type} (f : σ → α → Except String σ) : σ → List α → Except String σ
  | acc, [] => .ok acc
  | acc, a :: as =>
    match f acc a with
    | .error e => .error e
    | .ok acc2 => foldExcept f acc2 as

-- ---------------- semantic pools (module-level constants) ----------------

def DOC_TITLES : List String :=
  ["AI in Education", "Knowledge Graphs", "Quantum Research",
   "Cloud Computing", "Open Science", "Machine Learning for Healthcare",
   "Semantic Web Technologies", "Data Science for Policy"]

def FIRSTNAMES : List String :=
  ["Ana", "Marko", "Jelena", "Petar", "Ivana", "Nikola", "Maja", "Milos", "Luka", "Sara"]

def LASTNAMES : List String :=
  ["Petrovic", "Garcia", "Smith", "Ivanov", "Chen", "Silva", "Jovanovic", "Kovacevic"]

def JOURNAL_TITLES : List String :=
  ["AI Review", "Information Systems", "Data Science Journal", "Computing Advances"]

def JOURNAL_ABBREV : List String :=
  ["AI Rev.", "Info. Syst.", "DSJ", "Comp. Adv."]

def EVENT_NAMES : List String :=
  ["AIConf 2025", "Open Science Summit", "Quantum Symposium", "Cloud Expo Europe"]

def GEO_NAMES : List String :=
  ["Serbia", "Germany", "USA", "France", "Spain"]

def GEO_CODES : List (String × String) :=
  [("Serbia", "RS"), ("Germany", "DE"), ("USA", "US"), ("France", "FR"), ("Spain", "ES")]

def GRANT_NAMES : List String :=
  ["HorizonEurope Project X", "National Science Grant Y", "AI Innovation Programme",
   "Climate Research Initiative"]

def INVESTIGATOR_ROLES : List String :=
  ["Principal Investigator", "Co-Principal Investigator", "Investigator"]

def ADVISORY_TYPES : List String :=
  ["Advising", "Faculty Mentoring", "Graduate Advising", "Postdoc or Fellow Advising",
   "Undergraduate Advising"]

def CITATION_SOURCES : List String :=
  ["OpenAlex", "Web of Science", "Scopus"]

def POSITION_TYPES : List String :=
  ["faculty position", "non-academic position"]

def POSITION_TITLES : List String :=
  ["full professor", "librarian", "developer"]

def ORG_TYPES : List String :=
  ["Faculty", "Research Center", "Research Institute", "College", "NGO"]

def ORG_NAMES : List String :=
  ["University of Belgrade", "Faculty of Science", "Institute of AI",
   "Research Center VINCA", "Open Data Lab"]

-- ---------------- id / string fabricators ----------------

/-- `"%04d" % n` for the ORCID blocks. -/
def pad4 (n : Nat) : String :=
  let s := toString n
  String.mk (List.replicate (4 - s.length) '0') ++ s

def make_orcid (g : Nat → Nat) : String :=
  String.intercalate "-" ((List.range 4).map (fun i => pad4 (randint (g i) 0 9999)))

def make_issn (g : Nat → Nat) : String :=
  toString (randint (g 0) 1000 9999) ++ "-" ++ toString (randint (g 1) 1000 9999)

def make_ror (g : Nat → Nat) : String :=
  "https://ror.org/" ++
    String.mk ((List.range 9).map (fun i =>
      choiceD (g i) "0123456789abcdefghijklmnopqrstuvwxyz".data 'x'))

def isSepChar (ch : Char) : Bool :=
  ch.isWhitespace || ch == '_' || ch == '-'

/-- Split on separator characters one at a time. Python uses
`re.split(r'[\s_\-]+', name)`, which collapses runs; the two observable uses
below (`parts == 1` iff no separator occurs, and the empty pieces being
filtered out by `if p`) coincide for both splitters. -/
def splitSepGo : List Char → List Char → List (List Char)
  | cur, [] => [cur.reverse]
  | cur, ch :: t =>
    if isSepChar ch then cur.reverse :: splitSepGo [] t else splitSepGo (ch :: cur) t

def make_abbrev (name : String) : String :=
  let parts := splitSepGo [] name.data
  if parts.length == 1 then
    String.mk ((name.data.take 4).map Char.toUpper)
  else
    String.mk ((((parts.filter (fun p => !p.isEmpty)).map
      (fun p => (p.headD ' ').toUpper)).take 6))

-- ---------------- PUML parsing ----------------

def isWordChar (ch : Char) : Bool :=
  ch.isAlphanum || ch == '_'

/-- `re.match(r'^entity\s+([A-Za-z0-9_]+)', line)`: the literal `entity`, at
least one whitespace character, then a nonempty run of word characters. -/
def matchEntity (line : String) : Option String :=
  let cs := line.data
  if cs.take 6 == "entity".data then
    let rest := cs.drop 6
    let ws := rest.takeWhile Char.isWhitespace
    if ws.isEmpty then none
    else
      let nm := (rest.drop ws.length).takeWhile isWordChar
      if nm.isEmpty then none else some (String.mk nm)
  else none

structure ParseState where
  entities : List (String × List String)
  relations : List Edge
  current : Option String
deriving DecidableEq

/-- Relation line handling: `'--' in line`, split on whitespace, need 3 tokens. -/
def relLine (st : ParseState) (line : String) : ParseState :=
  if hasSub "--" line then
    match splitWs line with
    | l :: conn :: r :: _ =>
      { st with relations := st.relations ++ [Edge.mk l conn r] }
    | _ => st
  else st

/-- One iteration of the parser loop of `parse_puml`. The two single-character
`startswith` tests of the source are modelled as first-character tests, which
is what they are. -/
def parseLine (st : ParseState) (raw : String) : ParseState :=
  let line := strTrim raw
  if line == "" || line.data.headD ' ' == '\x27' then st
  else
    match matchEntity line with
    | some nm => { st with entities := dictSet st.entities nm [], current := some nm }
    | none =>
      match st.current with
      | some cur =>
        if line.data.headD ' ' == '\x7d' then { st with current := none }
        else if line.data.contains ':' then
          let col := strTrim (String.mk (line.data.takeWhile (fun ch => ch != ':')))
          if col != "" && col != "--" then
            { st with entities :=
                dictSet st.entities cur ((dictGet st.entities cur).getD [] ++ [col]) }
          else st
        else relLine st line
      | none => relLine st line

def parse_puml (lines : List String) : (List (String × List String)) × List Edge :=
  let st := lines.foldl parseLine ⟨[], [], none⟩
  (st.entities, st.relations)

-- ---------------- classification / augmentation ----------------

def relDegree (relations : List Edge) (e : String) : Nat :=
  relations.foldl
    (fun n r => n + (if r.left == e then 1 else 0) + (if r.right == e then 1 else 0)) 0

def detect_assoc_entities (entities : List (String × List String))
    (relations : List Edge) : List String :=
  ((entities.filter (fun p => !p.2.isEmpty && decide (2 ≤ relDegree relations p.1))).map
    Prod.fst)

def is_mn (conn : String) : Bool :=
  hasSub "\x7d" conn && hasSub "\x7b" conn

def is_1n (conn : String) : Bool :=
  hasSub "||--o\x7b" conn || hasSub "|o--o\x7b" conn

/-- `entities[k].append(fk) if fk not in entities[k]`; KeyError when `k` is
not an entity. -/
def appendFk (es : List (String × List String)) (k fk : String) :
    Except String (List (String × List String)) :=
  match dictGet es k with
  | none => .error ("KeyError: " ++ k)
  | some cols => .ok (if fk ∈ cols then es else dictSet es k (cols ++ [fk]))

/-- One iteration of the FK-inference loop over relations in `generate_csvs`. -/
def augmentStep (assoc : List String) (es : List (String × List String)) (r : Edge) :
    Except String (List (String × List String)) :=
  if is_mn r.connector then .ok es
  else if assoc.contains r.left || assoc.contains r.right then .ok es
  else if hasSub "|o--o\x7b" r.connector then
    appendFk es r.left (strLower r.right ++ "_id")
  else if hasSub "||--o\x7b" r.connector then
    appendFk es r.right (strLower r.left ++ "_id")
  else if r.left == "Document" && (r.right == "Journal" || r.right == "Event") then
    appendFk es r.left (strLower r.right ++ "_id")
  else
    appendFk es r.right (strLower r.left ++ "_id")

def augmentAll (assoc : List String) (es : List (String × List String))
    (rels : List Edge) : Except String (List (String × List String)) :=
  foldExcept (augmentStep assoc) es rels

-- ---------------- primary keys ----------------

def pkRange (rows : Nat) : List Nat :=
  (List.range rows).map (fun i => i + 1)

/-- Pre-generation of PK lists: search columns case-insensitively for
`<entityname>_id`, else fall back to the first column ending in `_id`; only the
existence of such a column is used downstream (the identifier column name
itself is discarded by the script). -/
def compute_pk_values (es : List (String × List String)) (rows : Nat) :
    List (String × List Nat) :=
  es.map (fun p =>
    let lowered := p.2.map strLower
    let found := lowered.contains (strLower p.1 ++ "_id")
      || lowered.any (fun c => strEnds c "_id")
    (p.1, if found then pkRange rows else []))

-- ---------------- persons registry ----------------

def mkPersons (entities : List (String × List String))
    (pkv : List (String × List Nat)) (g : Nat → Nat → Nat) :
    List (String × PersonRec) :=
  match dictGet entities "Person" with
  | none => []
  | some _ =>
    let pks := (dictGet pkv "Person").getD [1]
    (List.range pks.length).map (fun i =>
      let pid := pks.getD i 0
      (toString pid,
       { person_id := pid
         firstname := choiceD (g i 0) FIRSTNAMES ""
         lastname := choiceD (g i 1) LASTNAMES ""
         other_name := choiceD (g i 2) FIRSTNAMES ""
         orcid := make_orcid (fun d => g i (3 + d)) }))

-- ---------------- pk pickers ----------------

def shiftG (g : Nat → Nat) (k : Nat) : Nat → Nat :=
  fun n => g (n + k)

/-- `pick_pk`: a member of the entity's PK list when nonempty, else
`randint(1, max(1, rows))`. -/
def pick_pk (pkv : List (String × List Nat)) (rows : Nat) (g : Nat → Nat)
    (ent : String) : Nat :=
  let vals := (dictGet pkv ent).getD []
  if !vals.isEmpty then choiceD (g 0) vals 0 else randint (g 0) 1 (max 1 rows)

/-- Scan of `pick_pk_for_ref`: first case-insensitive key match with a nonempty
PK list wins; fall through (also past empty matches) to `randint(1, max(1,rows))`. -/
def pick_pk_for_ref_go (ref : String) (g : Nat → Nat) (rows : Nat) :
    List (String × List Nat) → Nat
  | [] => randint (g 0) 1 (max 1 rows)
  | (k, vals) :: rest =>
    if strLower k == strLower ref && !vals.isEmpty then choiceD (g 0) vals 0
    else pick_pk_for_ref_go ref g rows rest

def pick_pk_for_ref (pkv : List (String × List Nat)) (ref : String) (rows : Nat)
    (g : Nat → Nat) : Nat :=
  pick_pk_for_ref_go ref g rows pkv

/-- The bounded advisor/student distinctness retry loop (at most 10 attempts). -/
def studentRetry (pkv : List (String × List Nat)) (rows : Nat) (adv : Option String) :
    Nat → (Nat → Nat) → Nat → Nat
  | 0, _, s => s
  | fuel + 1, g, s =>
    match adv with
    | none => s
    | some a =>
      if toString s == a then
        studentRetry pkv rows adv fuel (shiftG g 1) (pick_pk pkv rows g "Person")
      else s

-- ---------------- generic fallback generator ----------------

def synth_generic_value (cl : String) (g : Nat → Nat) : Value :=
  if hasSub "name" cl then .str (choiceD (g 0) (ORG_NAMES ++ FIRSTNAMES) "")
  else if hasSub "title" cl then .str (choiceD (g 0) DOC_TITLES "")
  else if hasSub "doi" cl then
    .str ("10." ++ toString (randint (g 0) 100 999) ++ "/" ++
      toString (randint (g 1) 1000 9999))
  else if hasSub "issn" cl then .str (make_issn g)
  else if hasSub "isbn" cl then .str (toString (randint (g 0) 1000000000 9999999999))
  else if hasSub "page" cl || hasSub "volume" cl || hasSub "issue" cl then
    .int (randint (g 0) 1 200)
  else .str (cl ++ "_" ++ toString (randint (g 0) 1 100))

-- ---------------- row synthesis (the per-column conditional cascade) ----------------

/-- The per-column conditional cascade of `generate_csvs`, one definition per
`elif` (in source order) so that proofs can peel one rule at a time. `row` is
the partial row built so far (earlier columns), `idx` the row index, `cl` the
lowercased column name, `lowered` the lowercased column list, `g` the
per-cell random oracle. The `preferred_title` / `type` branches for `Person`
reference the undefined module globals `PREFERRED_TITLES` / `PERSON_TYPES`
and therefore raise. -/
def scR29 (pkv : List (String × List Nat)) (_persons : List (String × PersonRec))
    (rows : Nat) (_ent : String) (_cols : List String) (_row : List Value)
    (_idx : Nat) (cl : String) (_lowered : List String) (g : Nat → Nat) :
    Except String Value :=
  if strEnds cl "_id" then
    .ok (.int (pick_pk_for_ref pkv (strDropLast cl 3) rows g))
  else
    .ok (synth_generic_value cl g)

def scR28 (pkv : List (String × List Nat)) (persons : List (String × PersonRec))
    (rows : Nat) (ent : String) (cols : List String) (row : List Value)
    (idx : Nat) (cl : String) (lowered : List String) (g : Nat → Nat) :
    Except String Value :=
  if cl == "publication_year" || cl == "start_year" || cl == "end_year" then
    .ok (.int (randint (g 0) 1990 2025))
  else scR29 pkv persons rows ent cols row idx cl lowered g

def scR27 (pkv : List (String × List Nat)) (persons : List (String × PersonRec))
    (rows : Nat) (ent : String) (cols : List String) (row : List Value)
    (idx : Nat) (cl : String) (lowered : List String) (g : Nat → Nat) :
    Except String Value :=
  if ent == "Position" && cl == "title" then
    .ok (.str (choiceD (g 0) POSITION_TITLES ""))
  else scR28 pkv persons rows ent cols row idx cl lowered g

def scR26 (pkv : List (String × List Nat)) (persons : List (String × PersonRec))
    (rows : Nat) (ent : String) (cols : List String) (row : List Value)
    (idx : Nat) (cl : String) (lowered : List String) (g : Nat → Nat) :
    Except String Value :=
  if ent == "Position" && cl == "type" then
    .ok (.str (choiceD (g 0) POSITION_TYPES ""))
  else scR27 pkv persons rows ent cols row idx cl lowered g

def scR25 (pkv : List (String × List Nat)) (persons : List (String × PersonRec))
    (rows : Nat) (ent : String) (cols : List String) (row : List Value)
    (idx : Nat) (cl : String) (lowered : List String) (g : Nat → Nat) :
    Except String Value :=
  if ent == "Person" && cl == "type" then
    .error "NameError: name PERSON_TYPES is not defined"
  else scR26 pkv persons rows ent cols row idx cl lowered g

def scR24 (pkv : List (String × List Nat)) (persons : List (String × PersonRec))
    (rows : Nat) (ent : String) (cols : List String) (row : List Value)
    (idx : Nat) (cl : String) (lowered : List String) (g : Nat → Nat) :
    Except String Value :=
  if ent == "Person" && cl == "orcid" then
    .ok (.str (make_orcid g))
  else scR25 pkv persons rows ent cols row idx cl lowered g

def scR23 (pkv : List (String × List Nat)) (persons : List (String × PersonRec))
    (rows : Nat) (ent : String) (cols : List String) (row : List Value)
    (idx : Nat) (cl : String) (lowered : List String) (g : Nat → Nat) :
    Except String Value :=
  if ent == "Person" && cl == "preferred_title" then
    .error "NameError: name PREFERRED_TITLES is not defined"
  else scR24 pkv persons rows ent cols row idx cl lowered g

def scR22 (pkv : List (String × List Nat)) (persons : List (String × PersonRec))
    (rows : Nat) (ent : String) (cols : List String) (row : List Value)
    (idx : Nat) (cl : String) (lowered : List String) (g : Nat → Nat) :
    Except String Value :=
  if ent == "Person" && cl == "other_name" then
    .ok (.str (choiceD (g 0) FIRSTNAMES ""))
  else scR23 pkv persons rows ent cols row idx cl lowered g

def scR21 (pkv : List (String × List Nat)) (persons : List (String × PersonRec))
    (rows : Nat) (ent : String) (cols : List String) (row : List Value)
    (idx : Nat) (cl : String) (lowered : List String) (g : Nat → Nat) :
    Except String Value :=
  if ent == "OrganisationUnit" && cl == "type" then
    .ok (.str (choiceD (g 0) ORG_TYPES ""))
  else scR22 pkv persons rows ent cols row idx cl lowered g

def scR20 (pkv : List (String × List Nat)) (persons : List (String × PersonRec))
    (rows : Nat) (ent : String) (cols : List String) (row : List Value)
    (idx : Nat) (cl : String) (lowered : List String) (g : Nat → Nat) :
    Except String Value :=
  if ent == "OrganisationUnit" && cl == "ror" then
    .ok (.str (make_ror g))
  else scR21 pkv persons rows ent cols row idx cl lowered g

def scR19 (pkv : List (String × List Nat)) (persons : List (String × PersonRec))
    (rows : Nat) (ent : String) (cols : List String) (row : List Value)
    (idx : Nat) (cl : String) (lowered : List String) (g : Nat → Nat) :
    Except String Value :=
  if ent == "OrganisationUnit" && cl == "abbreviation" then
    .ok (.str (make_abbrev (choiceD (g 0) ORG_NAMES "")))
  else scR20 pkv persons rows ent cols row idx cl lowered g

def scR18 (pkv : List (String × List Nat)) (persons : List (String × PersonRec))
    (rows : Nat) (ent : String) (cols : List String) (row : List Value)
    (idx : Nat) (cl : String) (lowered : List String) (g : Nat → Nat) :
    Except String Value :=
  if ent == "Journal" && cl == "issn" then
    .ok (.str (make_issn g))
  else scR19 pkv persons rows ent cols row idx cl lowered g

def scR17 (pkv : List (String × List Nat)) (persons : List (String × PersonRec))
    (rows : Nat) (ent : String) (cols : List String) (row : List Value)
    (idx : Nat) (cl : String) (lowered : List String) (g : Nat → Nat) :
    Except String Value :=
  if ent == "Journal" && cl == "abbreviation" then
    .ok (.str (make_abbrev (choiceD (g 0) JOURNAL_TITLES "")))
  else scR18 pkv persons rows ent cols row idx cl lowered g

def scR16 (pkv : List (String × List Nat)) (persons : List (String × PersonRec))
    (rows : Nat) (ent : String) (cols : List String) (row : List Value)
    (idx : Nat) (cl : String) (lowered : List String) (g : Nat → Nat) :
    Except String Value :=
  if ent == "Journal" && cl == "title" then
    .ok (.str (choiceD (g 0) JOURNAL_TITLES ""))
  else scR17 pkv persons rows ent cols row idx cl lowered g

def scR15 (pkv : List (String × List Nat)) (persons : List (String × PersonRec))
    (rows : Nat) (ent : String) (cols : List String) (row : List Value)
    (idx : Nat) (cl : String) (lowered : List String) (g : Nat → Nat) :
    Except String Value :=
  if (strLower ent == "investigatorship"
      || (ent == "Contributorship" && cl == "roletype")) && hasSub "role" cl then
    .ok (.str (choiceD (g 0) INVESTIGATOR_ROLES ""))
  else scR16 pkv persons rows ent cols row idx cl lowered g

def scR14 (pkv : List (String × List Nat)) (persons : List (String × PersonRec))
    (rows : Nat) (ent : String) (cols : List String) (row : List Value)
    (idx : Nat) (cl : String) (lowered : List String) (g : Nat → Nat) :
    Except String Value :=
  if ent == "Grant" && cl == "total_award_amount" then
    .ok (.int ((randint (g 0) 50 500) * 10000))
  else scR15 pkv persons rows ent cols row idx cl lowered g

def scR13 (pkv : List (String × List Nat)) (persons : List (String × PersonRec))
    (rows : Nat) (ent : String) (cols : List String) (row : List Value)
    (idx : Nat) (cl : String) (lowered : List String) (g : Nat → Nat) :
    Except String Value :=
  if ent == "Grant" && cl == "name" then
    .ok (.str (choiceD (g 0) GRANT_NAMES ""))
  else scR14 pkv persons rows ent cols row idx cl lowered g

def scR12 (pkv : List (String × List Nat)) (persons : List (String × PersonRec))
    (rows : Nat) (ent : String) (cols : List String) (row : List Value)
    (idx : Nat) (cl : String) (lowered : List String) (g : Nat → Nat) :
    Except String Value :=
  if ent == "Geolocation" && cl == "code" then
    .ok (.str ((dictGet GEO_CODES (choiceD (g 0) GEO_NAMES "")).getD "XX"))
  else scR13 pkv persons rows ent cols row idx cl lowered g

def scR11 (pkv : List (String × List Nat)) (persons : List (String × PersonRec))
    (rows : Nat) (ent : String) (cols : List String) (row : List Value)
    (idx : Nat) (cl : String) (lowered : List String) (g : Nat → Nat) :
    Except String Value :=
  if ent == "Geolocation" && cl == "name" then
    .ok (.str (choiceD (g 0) GEO_NAMES ""))
  else scR12 pkv persons rows ent cols row idx cl lowered g

def scR10 (pkv : List (String × List Nat)) (persons : List (String × PersonRec))
    (rows : Nat) (ent : String) (cols : List String) (row : List Value)
    (idx : Nat) (cl : String) (lowered : List String) (g : Nat → Nat) :
    Except String Value :=
  if ent == "Event" && cl == "name" then
    .ok (.str (choiceD (g 0) EVENT_NAMES ""))
  else scR11 pkv persons rows ent cols row idx cl lowered g

def scR9 (pkv : List (String × List Nat)) (persons : List (String × PersonRec))
    (rows : Nat) (ent : String) (cols : List String) (row : List Value)
    (idx : Nat) (cl : String) (lowered : List String) (g : Nat → Nat) :
    Except String Value :=
  if ent == "Advisorship" && cl == "advising_relationship_type" then
    .ok (.str (choiceD (g 0) ADVISORY_TYPES ""))
  else scR10 pkv persons rows ent cols row idx cl lowered g

def scR8 (pkv : List (String × List Nat)) (persons : List (String × PersonRec))
    (rows : Nat) (ent : String) (cols : List String) (row : List Value)
    (idx : Nat) (cl : String) (lowered : List String) (g : Nat → Nat) :
    Except String Value :=
  if ent == "Advisorship" && lowered.contains "student_person_id"
      && cl == "student_person_id" then
    let advisor_val : Option Value :=
      match findIdxO (fun x => x == "advisor_person_id") lowered with
      | some aidx => if h : aidx < row.length then some (row.get ⟨aidx, h⟩) else none
      | none => none
    .ok (.int (studentRetry pkv rows (advisor_val.map Value.pyStr) 10 (shiftG g 1)
      (pick_pk pkv rows g "Person")))
  else scR9 pkv persons rows ent cols row idx cl lowered g

def scR7 (pkv : List (String × List Nat)) (persons : List (String × PersonRec))
    (rows : Nat) (ent : String) (cols : List String) (row : List Value)
    (idx : Nat) (cl : String) (lowered : List String) (g : Nat → Nat) :
    Except String Value :=
  if ent == "Advisorship" && lowered.contains "advisor_person_id"
      && cl == "advisor_person_id" then
    .ok (.int (pick_pk pkv rows g "Person"))
  else scR8 pkv persons rows ent cols row idx cl lowered g

def scR6 (pkv : List (String × List Nat)) (persons : List (String × PersonRec))
    (rows : Nat) (ent : String) (cols : List String) (row : List Value)
    (idx : Nat) (cl : String) (lowered : List String) (g : Nat → Nat) :
    Except String Value :=
  if ent == "Document" && cl == "page_end" then
    match findIdxO (fun x => x == "page_start") lowered with
    | some psIdx =>
      if h : psIdx < row.length then
        match pyInt (row.get ⟨psIdx, h⟩) with
        | some start_val => .ok (.int (start_val + ((randint (g 0) 1 30 : Nat) : Int)))
        | none => .ok (.int (randint (g 0) 2 400))
      else .ok (.int (randint (g 0) 2 400))
    | none => .ok (.int (randint (g 0) 2 400))
  else scR7 pkv persons rows ent cols row idx cl lowered g

def scR5 (pkv : List (String × List Nat)) (persons : List (String × PersonRec))
    (rows : Nat) (ent : String) (cols : List String) (row : List Value)
    (idx : Nat) (cl : String) (lowered : List String) (g : Nat → Nat) :
    Except String Value :=
  if ent == "Document" && cl == "page_start" then
    .ok (.int (randint (g 0) 1 200))
  else scR6 pkv persons rows ent cols row idx cl lowered g

def scR4 (pkv : List (String × List Nat)) (persons : List (String × PersonRec))
    (rows : Nat) (ent : String) (cols : List String) (row : List Value)
    (idx : Nat) (cl : String) (lowered : List String) (g : Nat → Nat) :
    Except String Value :=
  if ent == "Citations" && (cl == "number" || cl == "citation_number") then
    .ok (.int (randint (g 0) 1 500))
  else scR5 pkv persons rows ent cols row idx cl lowered g

def scR3 (pkv : List (String × List Nat)) (persons : List (String × PersonRec))
    (rows : Nat) (ent : String) (cols : List String) (row : List Value)
    (idx : Nat) (cl : String) (lowered : List String) (g : Nat → Nat) :
    Except String Value :=
  if ent == "Citations" && (cl == "source" || cl == "citation_source") then
    .ok (.str (choiceD (g 0) CITATION_SOURCES ""))
  else scR4 pkv persons rows ent cols row idx cl lowered g

def scR2 (pkv : List (String × List Nat)) (persons : List (String × PersonRec))
    (rows : Nat) (ent : String) (cols : List String) (row : List Value)
    (idx : Nat) (cl : String) (lowered : List String) (g : Nat → Nat) :
    Except String Value :=
  if ent == "Authorship" && cl == "display_author_name" then
    let pid := pick_pk pkv rows g "Person"
    let person := (dictGet persons (toString pid)).getD
      { person_id := pid, firstname := choiceD (g 1) FIRSTNAMES "",
        lastname := choiceD (g 2) LASTNAMES "", other_name := "", orcid := "" }
    .ok (.str (person.firstname ++ " " ++ person.lastname))
  else scR3 pkv persons rows ent cols row idx cl lowered g

def scR1 (pkv : List (String × List Nat)) (persons : List (String × PersonRec))
    (rows : Nat) (ent : String) (cols : List String) (row : List Value)
    (idx : Nat) (cl : String) (lowered : List String) (g : Nat → Nat) :
    Except String Value :=
  if cl == strLower ent ++ "_id" && !((dictGet pkv ent).getD []).isEmpty then
    .ok (.int (((dictGet pkv ent).getD []).getD
      (idx % ((dictGet pkv ent).getD []).length) 0))
  else scR2 pkv persons rows ent cols row idx cl lowered g

/-- One cell of one row: enter the cascade with the lowercased column name
and column list precomputed, as the source does. -/
def synthCell (pkv : List (String × List Nat)) (persons : List (String × PersonRec))
    (rows : Nat) (ent : String) (cols : List String) (row : List Value)
    (idx : Nat) (c : String) (g : Nat → Nat) : Except String Value :=
  scR1 pkv persons rows ent cols row idx (strLower c) (cols.map strLower) g

/-- The inner `for c in cols` loop: build the cells of one row left to right,
each cell seeing the values written so far. -/
def buildCells (pkv : List (String × List Nat)) (persons : List (String × PersonRec))
    (rows : Nat) (ent : String) (cols : List String) (idx : Nat)
    (g : Nat → Nat → Nat) : List Value → List String → Except String (List Value)
  | _, [] => .ok []
  | built, c :: cs =>
    match synthCell pkv persons rows ent cols built idx c (g built.length) with
    | .error e => .error e
    | .ok v =>
      match buildCells pkv persons rows ent cols idx g (built ++ [v]) cs with
      | .error e => .error e
      | .ok vs => .ok (v :: vs)

def buildRow (pkv : List (String × List Nat)) (persons : List (String × PersonRec))
    (rows : Nat) (ent : String) (cols : List String) (idx : Nat)
    (g : Nat → Nat → Nat) : Except String (List Value) :=
  buildCells pkv persons rows ent cols idx g [] cols

/-- The `for idx in range(rows)` loop of one entity CSV. -/
def entityRows (pkv : List (String × List Nat)) (persons : List (String × PersonRec))
    (rows : Nat) (ent : String) (cols : List String) (g : Nat → Nat → Nat → Nat) :
    Except String (List (List Value)) :=
  mapExcept (fun idx => buildRow pkv persons rows ent cols idx (g idx)) (List.range rows)

-- ---------------- M:N join tables ----------------

/-- The data rows of one M:N join CSV: key pools fall back to `[1]` when a PK
list is missing or empty, coverage pairs walk both pools in lock-step up to
`min` of the pool sizes, random pairs pad up to `rows`, and the result is
truncated to exactly `rows` pairs. -/
def join_pairs (leftVals rightVals : List Nat) (rows : Nat) (g : Nat → Nat → Nat) :
    List (Nat × Nat) :=
  let lv := if leftVals.isEmpty then [1] else leftVals
  let rv := if rightVals.isEmpty then [1] else rightVals
  let minlen := min lv.length rv.length
  let cov := (List.range minlen).map
    (fun i => (lv.getD (i % lv.length) 0, rv.getD (i % rv.length) 0))
  let pad := (List.range (rows - minlen)).map
    (fun j => (choiceD (g j 0) lv 0, choiceD (g j 1) rv 0))
  (cov ++ pad).take rows

-- ---------------- whole-run generation ----------------

/-- Random oracle for one run: draws for the persons registry (person index,
draw index), for entity cells (entity, row, column position, draw index) and
for join-table padding (relation index, pad index, draw index). -/
structure Oracle where
  personsDraw : Nat → Nat → Nat
  cellDraw : String → Nat → Nat → Nat → Nat
  joinDraw : Nat → Nat → Nat → Nat

/-- `generate_csvs`: FK augmentation, PK pre-generation, persons registry,
entity CSVs in entity order, then join-table CSVs in relation order. The
result models the files a completed run writes (name, header row, data rows);
an exception anywhere aborts the run. -/
def generate_csvs (entities0 : List (String × List String)) (relations : List Edge)
    (rows : Nat) (o : Oracle) : Except String (List CsvFile) :=
  let assoc := detect_assoc_entities entities0 relations
  match augmentAll assoc entities0 relations with
  | .error e => .error e
  | .ok entities =>
    let pkv := compute_pk_values entities rows
    let persons := mkPersons entities pkv o.personsDraw
    match mapExcept (fun p =>
        match entityRows pkv persons rows p.1 p.2 (o.cellDraw p.1) with
        | .error e => .error e
        | .ok rs => .ok (CsvFile.mk (strLower p.1 ++ ".csv") p.2 rs)) entities with
    | .error e => .error e
    | .ok entFiles =>
      let joinFiles := ((relations.enum.filter (fun p => is_mn p.2.connector)).map
        (fun p =>
          let leftVals := (dictGet pkv p.2.left).getD []
          let rightVals := (dictGet pkv p.2.right).getD []
          CsvFile.mk (strLower p.2.left ++ "_" ++ strLower p.2.right ++ ".csv")
            [strLower p.2.left ++ "_id", strLower p.2.right ++ "_id"]
            ((join_pairs leftVals rightVals rows (o.joinDraw p.1)).map
              (fun q => [Value.int q.1, Value.int q.2]))))
      .ok (entFiles ++ joinFiles)

-- ---------------- support lemmas: dictionaries ----------------

theorem dictGet_dictSet_self {α : Type} (d : List (String × α)) (k : String) (v : α) :
    dictGet (dictSet d k v) k = some v := by
  induction d with
  | nil => simp [dictGet, dictSet]
  | cons q rest ih =>
    obtain ⟨k0, v0⟩ := q
    by_cases h : k0 = k
    · simp [dictGet, dictSet, h]
    · simp [dictGet, dictSet, h, ih]

theorem dictGet_dictSet_ne {α : Type} (d : List (String × α)) (k key : String) (v : α)
    (h : k ≠ key) : dictGet (dictSet d k v) key = dictGet d key := by
  induction d with
  | nil => simp [dictGet, dictSet, h]
  | cons q rest ih =>
    obtain ⟨k0, v0⟩ := q
    by_cases h0 : k0 = k
    · subst h0
      simp [dictGet, dictSet, h]
    · by_cases h1 : k0 = key
      · subst h1
        simp [dictGet, dictSet, h0]
      · simp [dictGet, dictSet, h0, h1, ih]

theorem dictGet_mem {α : Type} (d : List (String × α)) (key : String) (v : α)
    (h : dictGet d key = some v) : (key, v) ∈ d := by
  induction d with
  | nil => simp [dictGet] at h
  | cons q rest ih =>
    obtain ⟨k0, v0⟩ := q
    by_cases h0 : k0 = key
    · subst h0
      simp [dictGet] at h
      subst h
      exact List.mem_cons_self _ _
    · simp [dictGet, h0] at h
      exact List.mem_cons_of_mem _ (ih h)

theorem mem_dictSet {α : Type} (d : List (String × α)) (k : String) (v : α)
    (p : String × α) (h : p ∈ dictSet d k v) : p ∈ d ∨ p.2 = v := by
  induction d with
  | nil =>
    simp [dictSet] at h
    subst h
    right; rfl
  | cons q rest ih =>
    obtain ⟨k0, v0⟩ := q
    by_cases h0 : k0 = k
    · simp [dictSet, h0] at h
      rcases h with h | h
      · subst h; right; rfl
      · left; exact List.mem_cons_of_mem _ h
    · simp [dictSet, h0] at h
      rcases h with h | h
      · left; subst h; exact List.mem_cons_self _ _
      · rcases ih h with h2 | h2
        · left; exact List.mem_cons_of_mem _ h2
        · right; exact h2

theorem optGetD_nonempty {α : Type} (o : Option (List α)) (h : o.getD [] ≠ []) :
    o = some (o.getD []) := by
  cases o <;> simp_all

-- ---------------- support lemmas: lists, choices, pk ranges ----------------

theorem getD_mem {α : Type} (xs : List α) (n : Nat) (d : α) (h : n < xs.length) :
    xs.getD n d ∈ xs := by
  induction xs generalizing n with
  | nil => simp at h
  | cons a t ih =>
    cases n with
    | zero => simp [List.getD]
    | succ m =>
      simp only [List.getD_cons_succ]
      exact List.mem_cons_of_mem _ (ih m (by simpa using h))

theorem choiceD_mem {α : Type} (r : Nat) (xs : List α) (d : α) (h : xs ≠ []) :
    choiceD r xs d ∈ xs := by
  have hlen : 0 < xs.length := List.length_pos.mpr h
  exact getD_mem xs _ d (Nat.mod_lt _ hlen)

theorem pkRange_length (rows : Nat) : (pkRange rows).length = rows := by
  simp [pkRange]

theorem mem_pkRange (rows m : Nat) : m ∈ pkRange rows ↔ 1 ≤ m ∧ m ≤ rows := by
  simp only [pkRange, List.mem_map, List.mem_range]
  constructor
  · rintro ⟨i, hi, rfl⟩; omega
  · rintro ⟨h1, h2⟩; exact ⟨m - 1, by omega, by omega⟩

theorem pkRange_getD (rows i : Nat) (h : i < rows) : (pkRange rows).getD i 0 = i + 1 := by
  simp [pkRange, List.getD_eq_getElem?_getD, List.getElem?_map, List.getElem?_range h]

theorem pkRange_ne_nil (rows : Nat) (h : 1 ≤ rows) : pkRange rows ≠ [] := by
  intro hc
  have := pkRange_length rows
  rw [hc] at this
  simp at this
  omega

theorem findIdxO_some {α : Type} (p : α → Bool) (l : List α) (i : Nat)
    (h : findIdxO p l = some i) :
    ∃ hlt : i < l.length, p (l.get ⟨i, hlt⟩) = true := by
  induction l generalizing i with
  | nil => simp [findIdxO] at h
  | cons a t ih =>
    by_cases hp : p a
    · simp [findIdxO, hp] at h
      subst h
      exact ⟨by simp, by simpa using hp⟩
    · simp [findIdxO, hp] at h
      cases hfi : findIdxO p t with
      | none => rw [hfi] at h; simp at h
      | some j =>
        rw [hfi] at h
        simp at h
        obtain ⟨hlt, hpj⟩ := ih j hfi
        subst h
        exact ⟨by simpa using Nat.succ_lt_succ hlt, by simpa using hpj⟩

theorem get_take {α : Type} (l : List α) (j i : Nat)
    (h : i < (l.take j).length) (h2 : i < l.length) :
    (l.take j).get ⟨i, h⟩ = l.get ⟨i, h2⟩ := by
  simp [List.getElem_take']

-- ---------------- support lemmas: pk computation and pickers ----------------

theorem compute_pk_shape (es : List (String × List String)) (rows : Nat) :
    ∀ p ∈ compute_pk_values es rows, p.2 = [] ∨ p.2 = pkRange rows := by
  intro p hp
  simp only [compute_pk_values, List.mem_map] at hp
  obtain ⟨q, _, rfl⟩ := hp
  dsimp only
  split
  · right; rfl
  · left; rfl

theorem pick_pk_mem (pkv : List (String × List Nat)) (rows : Nat) (g : Nat → Nat)
    (ent : String)
    (hshape : ∀ p ∈ pkv, p.2 = [] ∨ p.2 = pkRange rows) (hrows : 1 ≤ rows) :
    pick_pk pkv rows g ent ∈ pkRange rows := by
  unfold pick_pk
  by_cases hne : ((dictGet pkv ent).getD []).isEmpty = true
  · simp only [hne, Bool.not_true, Bool.false_eq_true, if_false]
    rw [mem_pkRange, randint]
    have := Nat.mod_lt (g 0) (show 0 < max 1 rows + 1 - 1 by omega)
    omega
  · simp only [hne, Bool.not_false, if_true]
    have hnil : (dictGet pkv ent).getD [] ≠ [] := by
      intro hc; rw [hc] at hne; simp at hne
    have hsome := optGetD_nonempty _ hnil
    have hm := dictGet_mem pkv ent _ hsome
    rcases hshape _ hm with hcase | hcase
    · exact absurd hcase hnil
    · rw [← hcase]
      exact choiceD_mem _ _ _ hnil

theorem pick_pk_for_ref_go_mem (ref : String) (g : Nat → Nat) (rows : Nat)
    (pkv : List (String × List Nat))
    (hshape : ∀ p ∈ pkv, p.2 = [] ∨ p.2 = pkRange rows)
    (hex : ∃ p ∈ pkv, strLower p.1 = strLower ref ∧ p.2 ≠ []) :
    pick_pk_for_ref_go ref g rows pkv ∈ pkRange rows := by
  induction pkv with
  | nil => obtain ⟨p, hp, _⟩ := hex; simp at hp
  | cons q rest ih =>
    obtain ⟨k, vals⟩ := q
    simp only [pick_pk_for_ref_go]
    by_cases hg : (strLower k == strLower ref && !vals.isEmpty) = true
    · rw [if_pos hg]
      simp only [Bool.and_eq_true, beq_iff_eq, Bool.not_eq_true', List.isEmpty_eq_false] at hg
      rcases hshape (k, vals) (List.mem_cons_self _ _) with hcase | hcase
      · exact absurd hcase hg.2
      · rw [← hcase]; exact choiceD_mem _ _ _ hg.2
    · rw [if_neg hg]
      apply ih
      · intro p hp; exact hshape p (List.mem_cons_of_mem _ hp)
      · obtain ⟨p, hp, hmatch, hne⟩ := hex
        rcases List.mem_cons.mp hp with hh | hh
        · exfalso
          apply hg
          subst hh
          simp only [Bool.and_eq_true, beq_iff_eq, Bool.not_eq_true', List.isEmpty_eq_false]
          exact ⟨hmatch, hne⟩
        · exact ⟨p, hh, hmatch, hne⟩

theorem pick_pk_for_ref_mem (pkv : List (String × List Nat)) (ref : String)
    (rows : Nat) (g : Nat → Nat)
    (hshape : ∀ p ∈ pkv, p.2 = [] ∨ p.2 = pkRange rows)
    (hex : ∃ p ∈ pkv, strLower p.1 = strLower ref ∧ p.2 ≠ []) :
    pick_pk_for_ref pkv ref rows g ∈ pkRange rows :=
  pick_pk_for_ref_go_mem ref g rows pkv hshape hex

theorem studentRetry_mem (pkv : List (String × List Nat)) (rows : Nat)
    (adv : Option String) (fuel : Nat) (g : Nat → Nat) (s : Nat)
    (hshape : ∀ p ∈ pkv, p.2 = [] ∨ p.2 = pkRange rows) (hrows : 1 ≤ rows)
    (hs : s ∈ pkRange rows) :
    studentRetry pkv rows adv fuel g s ∈ pkRange rows := by
  induction fuel generalizing g s with
  | zero => exact hs
  | succ n ih =>
    cases adv with
    | none => simp only [studentRetry]; exact hs
    | some a =>
      simp only [studentRetry]
      by_cases he : (toString s == a) = true
      · rw [if_pos he]
        exact ih _ _ (pick_pk_mem pkv rows g "Person" hshape hrows)
      · rw [if_neg he]
        exact hs

-- ---------------- support lemmas: row construction ----------------

theorem buildCells_spec (pkv : List (String × List Nat))
    (persons : List (String × PersonRec)) (rows : Nat) (ent : String)
    (cols : List String) (idx : Nat) (g : Nat → Nat → Nat) :
    ∀ (pending : List String) (built out : List Value),
      buildCells pkv persons rows ent cols idx g built pending = .ok out →
      out.length = pending.length ∧
      ∀ (j : Nat) (hj : j < out.length) (hjp : j < pending.length),
        synthCell pkv persons rows ent cols (built ++ out.take j) idx
          (pending.get ⟨j, hjp⟩) (g (built.length + j)) = .ok (out.get ⟨j, hj⟩) := by
  intro pending
  induction pending with
  | nil =>
    intro built out h
    simp only [buildCells] at h
    cases h
    exact ⟨rfl, fun j hj hjp => by simp at hjp⟩
  | cons c cs ih =>
    intro built out h
    simp only [buildCells] at h
    cases hsc : synthCell pkv persons rows ent cols built idx c (g built.length) with
    | error e => rw [hsc] at h; cases h
    | ok v =>
      rw [hsc] at h
      dsimp only at h
      cases hbc : buildCells pkv persons rows ent cols idx g (built ++ [v]) cs with
      | error e => rw [hbc] at h; cases h
      | ok vs =>
        rw [hbc] at h
        dsimp only at h
        cases h
        obtain ⟨ihlen, ihspec⟩ := ih (built ++ [v]) vs hbc
        constructor
        · simp [ihlen]
        · intro j hj hjp
          cases j with
          | zero =>
            simpa using hsc
          | succ m =>
            have hm : m < vs.length := by simpa using hj
            have hmp : m < cs.length := by simpa using hjp
            have := ihspec m hm hmp
            have harr : built ++ (v :: vs).take (m + 1) = (built ++ [v]) ++ vs.take m := by
              simp [List.take_succ_cons]
            have hlen2 : built.length + (m + 1) = (built ++ [v]).length + m := by
              simp; omega
            rw [harr, hlen2]
            simpa using this

theorem buildRow_spec (pkv : List (String × List Nat))
    (persons : List (String × PersonRec)) (rows : Nat) (ent : String)
    (cols : List String) (idx : Nat) (g : Nat → Nat → Nat) (out : List Value)
    (h : buildRow pkv persons rows ent cols idx g = .ok out) :
    out.length = cols.length ∧
    ∀ (j : Nat) (hj : j < out.length) (hjp : j < cols.length),
      synthCell pkv persons rows ent cols (out.take j) idx
        (cols.get ⟨j, hjp⟩) (g j) = .ok (out.get ⟨j, hj⟩) := by
  obtain ⟨hlen, hspec⟩ := buildCells_spec pkv persons rows ent cols idx g cols [] out h
  refine ⟨hlen, fun j hj hjp => ?_⟩
  have := hspec j hj hjp
  simpa using this

-- ---------------- support lemmas: mapExcept ----------------

theorem mapExcept_ok_mem {α β : Type} (f : α → Except String β) (l : List α)
    (bs : List β) (h : mapExcept f l = .ok bs) :
    ∀ b ∈ bs, ∃ a ∈ l, f a = .ok b := by
  induction l generalizing bs with
  | nil =>
    simp only [mapExcept] at h
    cases h
    intro b hb
    simp at hb
  | cons a as ih =>
    simp only [mapExcept] at h
    cases hf : f a with
    | error e => rw [hf] at h; cases h
    | ok b0 =>
      rw [hf] at h
      cases hrec : mapExcept f as with
      | error e => rw [hrec] at h; cases h
      | ok bs0 =>
        rw [hrec] at h
        cases h
        intro b hb
        rcases List.mem_cons.mp hb with hb | hb
        · exact ⟨a, List.mem_cons_self _ _, hb ▸ hf⟩
        · obtain ⟨a2, ha2, hfa2⟩ := ih bs0 hrec b hb
          exact ⟨a2, List.mem_cons_of_mem _ ha2, hfa2⟩

-- ---------------- parser facts ----------------

theorem matchEntity_head (line : String) (nm : String) (h : matchEntity line = some nm) :
    line.data.headD ' ' = 'e' ∧ line ≠ "" := by
  simp only [matchEntity] at h
  by_cases h6 : (line.data.take 6 == "entity".data) = true
  · have h6' : line.data.take 6 = "entity".data := by
      simpa using h6
    cases hl : line.data with
    | nil =>
      rw [hl] at h6'
      exact absurd h6' (by decide)
    | cons ch t =>
      rw [hl] at h6'
      simp only [List.take_succ_cons] at h6'
      have hch : ch = 'e' := by
        have := congrArg (fun l => l.headD ' ') h6'
        simpa using this
      constructor
      · simp [hch]
      · intro hc
        rw [hc] at hl
        simp at hl
  · rw [if_neg h6] at h
    cases h

/-- Claim C10: re-parsing an entity-opening line for an already-seen entity
name resets that entity's column list to the empty list (and re-opens
attribute collection for it), so attributes collected from the earlier block
of the same name are discarded from the parser's output mapping. -/
theorem c10_reopen_resets (st : ParseState) (raw nm : String)
    (hm : matchEntity (strTrim raw) = some nm) :
    dictGet (parseLine st raw).entities nm = some [] ∧
    (parseLine st raw).current = some nm := by
  obtain ⟨hhead, hne⟩ := matchEntity_head _ _ hm
  have hc1 : (strTrim raw == "") = false := by
    simpa using hne
  have hc2 : ((strTrim raw).data.headD ' ' == '\x27') = false := by
    rw [hhead]; decide
  simp only [parseLine, hc1, hc2, Bool.or_self, Bool.false_eq_true, if_false]
  rw [hm]
  exact ⟨dictGet_dictSet_self st.entities nm [], rfl⟩

theorem c10_witness :
    dictGet (parseLine ⟨[("A", ["x"])], [], none⟩ "entity A").entities "A" = some [] ∧
    (parseLine ⟨[("A", ["x"])], [], none⟩ "entity A").current = some "A" :=
  c10_reopen_resets ⟨[("A", ["x"])], [], none⟩ "entity A" "A" rfl

-- ---------------- augmentation facts ----------------

theorem appendFk_get_other (es es2 : List (String × List String)) (k fk key : String)
    (hok : appendFk es k fk = .ok es2) (hne : key ≠ k) :
    dictGet es2 key = dictGet es key := by
  unfold appendFk at hok
  cases hd : dictGet es k with
  | none => rw [hd] at hok; cases hok
  | some cols =>
    rw [hd] at hok
    dsimp only at hok
    cases hok
    by_cases hm : fk ∈ cols
    · rw [if_pos hm]
    · rw [if_neg hm]
      exact dictGet_dictSet_ne es k key _ (fun h => hne h.symm)

theorem augmentStep_assoc_get (assoc : List String) (es es2 : List (String × List String))
    (r : Edge) (ent : String) (hok : augmentStep assoc es r = .ok es2)
    (hent : ent ∈ assoc) : dictGet es2 ent = dictGet es ent := by
  unfold augmentStep at hok
  split_ifs at hok with h1 h2 h3 h4 h5
  · cases hok; rfl
  · cases hok; rfl
  all_goals {
    have hnm : r.left ∉ assoc ∧ r.right ∉ assoc := by
      simp only [Bool.or_eq_true] at h2
      push_neg at h2
      exact ⟨fun hc => h2.1 (List.elem_iff.mpr hc), fun hc => h2.2 (List.elem_iff.mpr hc)⟩
    first
    | exact appendFk_get_other es es2 r.left _ ent hok
        (fun hc => hnm.1 (hc ▸ hent))
    | exact appendFk_get_other es es2 r.right _ ent hok
        (fun hc => hnm.2 (hc ▸ hent))
  }

theorem augmentAll_assoc_get (assoc : List String) (ent : String) (hent : ent ∈ assoc) :
    ∀ (rels : List Edge) (es es2 : List (String × List String)),
      augmentAll assoc es rels = .ok es2 → dictGet es2 ent = dictGet es ent := by
  intro rels
  induction rels with
  | nil =>
    intro es es2 h
    simp only [augmentAll, foldExcept] at h
    cases h
    rfl
  | cons r rs ih =>
    intro es es2 h
    simp only [augmentAll, foldExcept] at h
    cases hst : augmentStep assoc es r with
    | error e => rw [hst] at h; cases h
    | ok es1 =>
      rw [hst] at h
      dsimp only at h
      exact (ih es1 es2 h).trans (augmentStep_assoc_get assoc es es1 r ent hst hent)

/-- Claim C5: an entity with at least one declared attribute and relationship
degree at least 2 (an association entity) is never given an auto-injected
foreign-key column: the schema-augmentation pass leaves its column list
untouched. -/
theorem c5_assoc_no_fk (es es2 : List (String × List String)) (rels : List Edge)
    (ent : String) (cols0 : List String)
    (hget : dictGet es ent = some cols0) (hne : cols0 ≠ [])
    (hdeg : 2 ≤ relDegree rels ent)
    (hok : augmentAll (detect_assoc_entities es rels) es rels = .ok es2) :
    dictGet es2 ent = dictGet es ent := by
  have hmem : (ent, cols0) ∈ es := dictGet_mem es ent cols0 hget
  have hassoc : ent ∈ detect_assoc_entities es rels := by
    simp only [detect_assoc_entities, List.mem_map]
    refine ⟨(ent, cols0), ?_, rfl⟩
    rw [List.mem_filter]
    refine ⟨hmem, ?_⟩
    simp [hne, hdeg]
  exact augmentAll_assoc_get _ ent hassoc rels es es2 hok

theorem c5_witness :
    dictGet [("C", ["x_id"]), ("A", ([] : List String)), ("B", [])] "C" =
      dictGet [("C", ["x_id"]), ("A", []), ("B", [])] "C" :=
  c5_assoc_no_fk [("C", ["x_id"]), ("A", []), ("B", [])]
    [("C", ["x_id"]), ("A", []), ("B", [])]
    [⟨"A", "||--o\x7b", "C"⟩, ⟨"B", "||--o\x7b", "C"⟩] "C" ["x_id"]
    rfl (by decide) (by decide) rfl

-- ---------------- rows = 0 ----------------

/-- Claim C7: with `rows = 0`, every file a successful run writes — entity CSVs
and M:N join-table CSVs alike — contains zero data rows (header only). -/
theorem c7_rows_zero (es : List (String × List String)) (rels : List Edge) (o : Oracle)
    (files : List CsvFile) (h : generate_csvs es rels 0 o = .ok files) :
    ∀ f ∈ files, f.rows = [] := by
  simp only [generate_csvs] at h
  cases ha : augmentAll (detect_assoc_entities es rels) es rels with
  | error e => rw [ha] at h; cases h
  | ok ents =>
    rw [ha] at h
    dsimp only at h
    cases hm : mapExcept (fun p =>
        match entityRows (compute_pk_values ents 0)
            (mkPersons ents (compute_pk_values ents 0) o.personsDraw) 0 p.1 p.2
            (o.cellDraw p.1) with
        | .error e => .error e
        | .ok rs => .ok (CsvFile.mk (strLower p.1 ++ ".csv") p.2 rs)) ents with
    | error e => rw [hm] at h; cases h
    | ok entFiles =>
      rw [hm] at h
      dsimp only at h
      cases h
      intro f hf
      rcases List.mem_append.mp hf with hf | hf
      · obtain ⟨p, _, hfp⟩ := mapExcept_ok_mem _ _ _ hm f hf
        have hz : entityRows (compute_pk_values ents 0)
            (mkPersons ents (compute_pk_values ents 0) o.personsDraw) 0 p.1 p.2
            (o.cellDraw p.1) = .ok ([] : List (List Value)) := rfl
        rw [hz] at hfp
        dsimp only at hfp
        cases hfp
        rfl
      · simp only [List.mem_map] at hf
        obtain ⟨q, _, rfl⟩ := hf
        have hz : ∀ lv rv g2, join_pairs lv rv 0 g2 = [] := by
          intro lv rv g2
          simp [join_pairs]
        dsimp only
        rw [hz]
        rfl

theorem c7_witness :
    (CsvFile.mk "a.csv" ["a_id"] []).rows = ([] : List (List Value)) :=
  c7_rows_zero [("A", ["a_id"])] []
    (Oracle.mk (fun _ _ => 0) (fun _ _ _ _ => 0) (fun _ _ _ => 0))
    [CsvFile.mk "a.csv" ["a_id"] []] rfl (CsvFile.mk "a.csv" ["a_id"] [])
    (List.mem_cons_self _ _)

-- ---------------- undefined vocabularies (Person columns) ----------------

theorem synthCell_person_preferred (pkv : List (String × List Nat))
    (persons : List (String × PersonRec)) (rows : Nat) (cols : List String)
    (row : List Value) (idx : Nat) (c : String) (g : Nat → Nat)
    (h : strLower c = "preferred_title") :
    synthCell pkv persons rows "Person" cols row idx c g =
      .error "NameError: name PREFERRED_TITLES is not defined" := by
  simp only [synthCell]
  rw [h]
  rfl

theorem synthCell_person_type (pkv : List (String × List Nat))
    (persons : List (String × PersonRec)) (rows : Nat) (cols : List String)
    (row : List Value) (idx : Nat) (c : String) (g : Nat → Nat)
    (h : strLower c = "type") :
    synthCell pkv persons rows "Person" cols row idx c g =
      .error "NameError: name PERSON_TYPES is not defined" := by
  simp only [synthCell]
  rw [h]
  rfl

theorem buildCells_person_bad (pkv : List (String × List Nat))
    (persons : List (String × PersonRec)) (rows : Nat) (cols : List String)
    (idx : Nat) (g : Nat → Nat → Nat) :
    ∀ (pending : List String) (built : List Value),
      (∃ c ∈ pending, strLower c = "preferred_title" ∨ strLower c = "type") →
      ∃ e, buildCells pkv persons rows "Person" cols idx g built pending = .error e := by
  intro pending
  induction pending with
  | nil =>
    intro built h
    obtain ⟨c, hc, _⟩ := h
    simp at hc
  | cons c cs ih =>
    intro built h
    cases hsc : synthCell pkv persons rows "Person" cols built idx c (g built.length) with
    | error e => exact ⟨e, by simp [buildCells, hsc]⟩
    | ok v =>
      obtain ⟨c0, hc0, hbad⟩ := h
      rcases List.mem_cons.mp hc0 with hcc | hcc
      · subst hcc
        rcases hbad with hb | hb
        · rw [synthCell_person_preferred pkv persons rows cols built idx c0
            (g built.length) hb] at hsc
          cases hsc
        · rw [synthCell_person_type pkv persons rows cols built idx c0
            (g built.length) hb] at hsc
          cases hsc
      · obtain ⟨e, he⟩ := ih (built ++ [v]) ⟨c0, hcc, hbad⟩
        exact ⟨e, by simp [buildCells, hsc, he]⟩

/-- Claim C9: if the Person entity has a column named `preferred_title` or
`type` (case-insensitively) and at least one row is requested, row synthesis
reaches the reference to the undefined vocabulary (`PREFERRED_TITLES` or
`PERSON_TYPES`) and aborts with an unhandled name-resolution fault instead of
producing a value for that cell. -/
theorem c9_undefined_vocab (pkv : List (String × List Nat))
    (persons : List (String × PersonRec)) (rows : Nat) (cols : List String)
    (g : Nat → Nat → Nat → Nat)
    (hcol : ∃ c ∈ cols, strLower c = "preferred_title" ∨ strLower c = "type")
    (hrows : 1 ≤ rows) :
    ∃ e, entityRows pkv persons rows "Person" cols g = .error e := by
  obtain ⟨e, he⟩ := buildCells_person_bad pkv persons rows cols 0 (g 0) cols [] hcol
  refine ⟨e, ?_⟩
  obtain ⟨n, rfl⟩ := Nat.exists_eq_add_of_le hrows
  have hr : List.range (1 + n) = 0 :: (List.range n).map (· + 1) := by
    rw [Nat.add_comm]
    simpa [Nat.succ_eq_add_one] using List.range_succ_eq_map n
  rw [entityRows, hr]
  simp only [mapExcept, buildRow]
  rw [he]

theorem c9_witness :
    ∃ e, entityRows (compute_pk_values [("Person", ["type"])] 1) [] 1 "Person"
      ["type"] (fun _ _ _ => 0) = .error e :=
  c9_undefined_vocab (compute_pk_values [("Person", ["type"])] 1) [] 1 ["type"]
    (fun _ _ _ => 0) ⟨"type", by decide, Or.inr rfl⟩ (by decide)

-- ---------------- column duplication (C8) ----------------

/-- Counterexample to claim C8 as stated: the parser does not deduplicate
attribute declarations. A diagram whose entity block repeats the attribute
line `x: int` yields the column list `["x", "x"]`, the augmentation pass (no
relations) leaves it unchanged, and the final column list is not
duplicate-free. -/
theorem c8_cex :
    (parse_puml ["entity A \x7b", "x: int", "x: int", "\x7d"]).1 = [("A", ["x", "x"])] ∧
    augmentAll (detect_assoc_entities [("A", ["x", "x"])] []) [("A", ["x", "x"])] [] =
      .ok [("A", ["x", "x"])] ∧
    ¬ (["x", "x"] : List String).Nodup := by
  refine ⟨rfl, rfl, by simp⟩

theorem appendFk_nodup (es es2 : List (String × List String)) (k fk : String)
    (hok : appendFk es k fk = .ok es2)
    (hnd : ∀ p ∈ es, p.2.Nodup) : ∀ p ∈ es2, p.2.Nodup := by
  unfold appendFk at hok
  cases hd : dictGet es k with
  | none => rw [hd] at hok; cases hok
  | some cols =>
    rw [hd] at hok
    dsimp only at hok
    cases hok
    intro p hp
    by_cases hm : fk ∈ cols
    · rw [if_pos hm] at hp
      exact hnd p hp
    · rw [if_neg hm] at hp
      rcases mem_dictSet _ _ _ _ hp with h2 | h2
      · exact hnd p h2
      · rw [h2]
        have hcols : cols.Nodup := hnd _ (dictGet_mem es k cols hd)
        simp [List.nodup_append, hcols, hm]

theorem augmentStep_nodup (assoc : List String) (es es2 : List (String × List String))
    (r : Edge) (hok : augmentStep assoc es r = .ok es2)
    (hnd : ∀ p ∈ es, p.2.Nodup) : ∀ p ∈ es2, p.2.Nodup := by
  unfold augmentStep at hok
  split_ifs at hok with h1 h2 h3 h4 h5
  · cases hok; exact hnd
  · cases hok; exact hnd
  · exact appendFk_nodup _ _ _ _ hok hnd
  · exact appendFk_nodup _ _ _ _ hok hnd
  · exact appendFk_nodup _ _ _ _ hok hnd
  · exact appendFk_nodup _ _ _ _ hok hnd

/-- Claim C8, amended: the augmentation step itself never introduces a
duplicate (a foreign-key column is appended only when absent), so every
entity whose parsed column list is duplicate-free still has a duplicate-free
column list after augmentation. (The parser does not deduplicate repeated
attribute lines, so the unconditional claim fails — see the counterexample.) -/
theorem c8_amended (assoc : List String) :
    ∀ (rels : List Edge) (es es2 : List (String × List String)),
      augmentAll assoc es rels = .ok es2 →
      (∀ p ∈ es, p.2.Nodup) → ∀ p ∈ es2, p.2.Nodup := by
  intro rels
  induction rels with
  | nil =>
    intro es es2 h hnd
    simp only [augmentAll, foldExcept] at h
    cases h
    exact hnd
  | cons r rs ih =>
    intro es es2 h hnd
    simp only [augmentAll, foldExcept] at h
    cases hst : augmentStep assoc es r with
    | error e => rw [hst] at h; cases h
    | ok es1 =>
      rw [hst] at h
      dsimp only at h
      exact ih es1 es2 h (augmentStep_nodup assoc es es1 r hst hnd)

theorem c8_amended_witness :
    (("A", ["x_id", "b_id"]) : String × List String).2.Nodup :=
  c8_amended [] [Edge.mk "B" "||--o\x7b" "A"] [("A", ["x_id"]), ("B", [])]
    [("A", ["x_id", "b_id"]), ("B", [])] rfl (by simp) ("A", ["x_id", "b_id"])
    (List.mem_cons_self _ _)

-- ---------------- identifier columns and PK sequences (C2) ----------------

/-- Counterexample to claim C2 as stated: when the identifier column is
detected by the fallback rule (first column ending in `_id`, here
`document_id` on entity `Person` with no entity `Document` present), the PK
sequence is `1..rows`, but the row synthesizer does not use it for that
column: cell `(row 0, document_id)` is produced by the generic foreign-key
rule and (under an oracle drawing 1) equals 2, not the sequence element 1. -/
theorem c2_cex :
    dictGet (compute_pk_values [("Person", ["document_id"])] 2) "Person" =
      some (pkRange 2) ∧
    synthCell (compute_pk_values [("Person", ["document_id"])] 2) [] 2 "Person"
      ["document_id"] [] 0 "document_id" (fun _ => 1) = .ok (.int 2) ∧
    (pkRange 2).getD 0 0 = 1 ∧ Value.int 2 ≠ Value.int 1 :=
  ⟨rfl, rfl, rfl, by decide⟩

/-- Claim C2, amended: for an entity whose columns contain the exact
identifier column `<entityname>_id` (case-insensitively), the PK sequence is
exactly `1..rows`, and every synthesized cell for a column named
`<entityname>_id` equals the sequence element at the row index modulo the
sequence length (`idx % rows + 1`). For a fallback-detected `_id` column only
the first half holds; the cell is filled by the generic foreign-key rule
instead (see the counterexample). -/
theorem c2_amended (es : List (String × List String)) (rows : Nat) (ent : String)
    (cols : List String)
    (hmem : (ent, cols) ∈ es)
    (hcand : (strLower ent ++ "_id") ∈ cols.map strLower) :
    (ent, pkRange rows) ∈ compute_pk_values es rows ∧
    ∀ (persons : List (String × PersonRec)) (cols2 : List String) (row : List Value)
      (idx : Nat) (c : String) (g : Nat → Nat),
      strLower c = strLower ent ++ "_id" →
      dictGet (compute_pk_values es rows) ent = some (pkRange rows) →
      1 ≤ rows →
      synthCell (compute_pk_values es rows) persons rows ent cols2 row idx c g =
        .ok (.int ((idx % rows + 1 : Nat) : Int)) := by
  constructor
  · simp only [compute_pk_values, List.mem_map]
    refine ⟨(ent, cols), hmem, ?_⟩
    dsimp only
    have hcont : (cols.map strLower).contains (strLower ent ++ "_id") = true :=
      List.elem_iff.mpr hcand
    rw [hcont, Bool.true_or]
    simp
  · intro persons cols2 row idx c g hc hget hrows
    have hne : pkRange rows ≠ [] := pkRange_ne_nil rows hrows
    simp only [synthCell, scR1]
    have hcond : (strLower c == strLower ent ++ "_id"
        && !((dictGet (compute_pk_values es rows) ent).getD []).isEmpty) = true := by
      rw [hc, hget]
      simp [hne]
    rw [if_pos hcond, hget]
    simp only [Option.getD_some]
    rw [pkRange_length, pkRange_getD rows (idx % rows) (Nat.mod_lt idx (by omega))]

theorem c2_witness :
    (("Person", pkRange 2) ∈ compute_pk_values [("Person", ["person_id"])] 2) ∧
    synthCell (compute_pk_values [("Person", ["person_id"])] 2) [] 2 "Person" [] [] 1
      "person_id" (fun _ => 0) = .ok (.int ((1 % 2 + 1 : Nat) : Int)) :=
  ⟨(c2_amended [("Person", ["person_id"])] 2 "Person" ["person_id"]
      (List.mem_cons_self _ _) (by decide)).1,
   (c2_amended [("Person", ["person_id"])] 2 "Person" ["person_id"]
      (List.mem_cons_self _ _) (by decide)).2 [] [] [] 1 "person_id" (fun _ => 0)
      rfl rfl (by decide)⟩

-- ---------------- Document page_start / page_end (C4) ----------------

theorem synthCell_document_page_start (pkv : List (String × List Nat))
    (persons : List (String × PersonRec)) (rows : Nat) (cols : List String)
    (row : List Value) (idx : Nat) (c : String) (g : Nat → Nat)
    (h : strLower c = "page_start") :
    synthCell pkv persons rows "Document" cols row idx c g =
      .ok (.int (randint (g 0) 1 200)) := by
  simp only [synthCell]
  rw [h]
  rfl

theorem synthCell_document_page_end (pkv : List (String × List Nat))
    (persons : List (String × PersonRec)) (rows : Nat) (cols : List String)
    (row : List Value) (idx : Nat) (c : String) (g : Nat → Nat)
    (h : strLower c = "page_end") :
    synthCell pkv persons rows "Document" cols row idx c g =
      (match findIdxO (fun x => x == "page_start") (cols.map strLower) with
       | some psIdx =>
         if h2 : psIdx < row.length then
           match pyInt (row.get ⟨psIdx, h2⟩) with
           | some start_val => .ok (.int (start_val + ((randint (g 0) 1 30 : Nat) : Int)))
           | none => .ok (.int (randint (g 0) 2 400))
         else .ok (.int (randint (g 0) 2 400))
       | none => .ok (.int (randint (g 0) 2 400))) := by
  simp only [synthCell]
  rw [h]
  rfl

/-- Claim C4: in every generated `Document` row, when `page_start` occurs in
the column list (first occurrence at index `i`) and a `page_end` column sits
at a later index `j`, both cells are integers and the `page_end` value is
strictly greater than the `page_start` value. -/
theorem c4_page_order (pkv : List (String × List Nat))
    (persons : List (String × PersonRec)) (rows : Nat) (cols : List String)
    (idx : Nat) (g : Nat → Nat → Nat) (row : List Value)
    (hok : buildRow pkv persons rows "Document" cols idx g = .ok row)
    (i j : Nat)
    (hfind : findIdxO (fun x => x == "page_start") (cols.map strLower) = some i)
    (hj : j < cols.length)
    (hjend : strLower (cols.get ⟨j, hj⟩) = "page_end")
    (hij : i < j) :
    ∃ (a b : Int) (hi2 : i < row.length) (hj2 : j < row.length),
      row.get ⟨i, hi2⟩ = .int a ∧ row.get ⟨j, hj2⟩ = .int b ∧ a < b := by
  obtain ⟨hlen, hspec⟩ := buildRow_spec pkv persons rows "Document" cols idx g row hok
  have hi : i < cols.length := Nat.lt_trans hij hj
  have hi2 : i < row.length := by rw [hlen]; exact hi
  have hj2 : j < row.length := by rw [hlen]; exact hj
  obtain ⟨hlt, hp⟩ := findIdxO_some _ _ _ hfind
  have hstarti : strLower (cols.get ⟨i, hi⟩) = "page_start" := by
    have hp2 : (cols.map strLower).get ⟨i, hlt⟩ = "page_start" := by simpa using hp
    rw [List.get_map] at hp2
    exact hp2
  have hci := hspec i hi2 hi
  rw [synthCell_document_page_start pkv persons rows cols (row.take i) idx _ (g i)
    hstarti] at hci
  injection hci with hvi
  have hcj := hspec j hj2 hj
  rw [synthCell_document_page_end pkv persons rows cols (row.take j) idx _ (g j)
    hjend] at hcj
  rw [hfind] at hcj
  dsimp only at hcj
  have hlti : i < (row.take j).length := by
    rw [List.length_take]
    omega
  rw [dif_pos hlti] at hcj
  rw [get_take row j i hlti hi2] at hcj
  rw [← hvi] at hcj
  dsimp only [pyInt] at hcj
  injection hcj with hvj
  refine ⟨randint (g i 0) 1 200, _, hi2, hj2, hvi.symm, hvj.symm, ?_⟩
  have hr : 1 ≤ randint (g j 0) 1 30 := by
    unfold randint
    omega
  omega

theorem c4_witness :
    ∃ (a b : Int) (hi2 : 0 < ([Value.int 1, Value.int 2] : List Value).length)
      (hj2 : 1 < ([Value.int 1, Value.int 2] : List Value).length),
      ([Value.int 1, Value.int 2] : List Value).get ⟨0, hi2⟩ = .int a ∧
      ([Value.int 1, Value.int 2] : List Value).get ⟨1, hj2⟩ = .int b ∧ a < b :=
  c4_page_order [] [] 1 ["page_start", "page_end"] 0 (fun _ _ => 0)
    [Value.int 1, Value.int 2] rfl 0 1 rfl (by decide) rfl (by decide)

-- ---------------- M:N join tables (C3) ----------------

/-- Counterexample to claim C3 as stated: when the left endpoint has an empty
primary-key sequence its pool degenerates to `[1]`, the lock-step coverage
walk stops after `min` of the pool sizes (= 1) pairs, and the random padding
need not hit the remaining right-side keys. With `rows = 2`, right keys
`1..2`, and an oracle always drawing 0, key 2 never appears in any pair even
though `rows ≥ min(|left|, |right|)`. -/
theorem c3_cex :
    join_pairs [] (pkRange 2) 2 (fun _ _ => 0) = [(1, 1), (1, 1)] ∧
    2 ∈ pkRange 2 ∧
    ¬ ∃ pr ∈ [((1 : Nat), (1 : Nat)), (1, 1)], pr.2 = 2 :=
  ⟨rfl, by decide, by decide⟩

/-- Claim C3, amended: every emitted join table has exactly `rows` data rows
(unconditionally), and when BOTH endpoints have non-empty primary-key
sequences (hence both equal `1..rows`), every key of either sequence appears
in at least one emitted pair. When one endpoint's sequence is empty the
coverage guarantee fails (see the counterexample). -/
theorem c3_amended (leftVals rightVals : List Nat) (rows : Nat) (g : Nat → Nat → Nat) :
    (join_pairs leftVals rightVals rows g).length = rows ∧
    (leftVals = pkRange rows → rightVals = pkRange rows → 1 ≤ rows →
      ∀ k ∈ pkRange rows,
        (∃ pr ∈ join_pairs leftVals rightVals rows g, pr.1 = k) ∧
        (∃ pr ∈ join_pairs leftVals rightVals rows g, pr.2 = k)) := by
  constructor
  · simp only [join_pairs, List.length_take, List.length_append, List.length_map,
      List.length_range]
    omega
  · intro hL hR hrows k hk
    subst hL
    subst hR
    have hne : ¬ (pkRange rows).isEmpty = true := by
      simp [List.isEmpty_iff, pkRange_ne_nil rows hrows]
    have heq : join_pairs (pkRange rows) (pkRange rows) rows g
        = (List.range rows).map (fun i => (i + 1, i + 1)) := by
      unfold join_pairs
      rw [if_neg hne]
      dsimp only
      rw [pkRange_length]
      simp only [Nat.min_self, Nat.sub_self, List.range_zero, List.map_nil,
        List.append_nil]
      rw [List.take_of_length_le (by simp)]
      apply List.map_congr_left
      intro i hi
      rw [List.mem_range] at hi
      rw [Nat.mod_eq_of_lt hi, pkRange_getD rows i hi]
    rw [heq]
    obtain ⟨h1, h2⟩ := (mem_pkRange rows k).mp hk
    have hmem : (k - 1 + 1, k - 1 + 1) ∈ (List.range rows).map (fun i => (i + 1, i + 1)) :=
      List.mem_map.mpr ⟨k - 1, List.mem_range.mpr (by omega), rfl⟩
    exact ⟨⟨(k - 1 + 1, k - 1 + 1), hmem, by omega⟩, ⟨(k - 1 + 1, k - 1 + 1), hmem, by omega⟩⟩

theorem c3_witness :
    (join_pairs (pkRange 2) (pkRange 2) 2 (fun _ _ => 0)).length = 2 ∧
    ((∃ pr ∈ join_pairs (pkRange 2) (pkRange 2) 2 (fun _ _ => 0), pr.1 = 2) ∧
     (∃ pr ∈ join_pairs (pkRange 2) (pkRange 2) 2 (fun _ _ => 0), pr.2 = 2)) :=
  ⟨(c3_amended (pkRange 2) (pkRange 2) 2 (fun _ _ => 0)).1,
   (c3_amended (pkRange 2) (pkRange 2) 2 (fun _ _ => 0)).2 rfl rfl (by decide) 2
     (by decide)⟩

-- ---------------- foreign-key plausibility (C1) ----------------

/-- Counterexample to claim C1 as stated: the hard-coded investigator-role
rule fires before the generic foreign-key rule. For entity
`Investigatorship` with column `role_id` (and an entity `Role` with a
non-empty primary-key sequence), the synthesized value is the string
`"Principal Investigator"`, which is not an integer of `Role`'s primary-key
sequence. -/
theorem c1_cex :
    synthCell
      (compute_pk_values [("Role", ["role_id"]), ("Investigatorship", ["role_id"])] 1)
      [] 1 "Investigatorship" ["role_id"] [] 0 "role_id" (fun _ => 0) =
      .ok (.str "Principal Investigator") ∧
    strEnds (strLower "role_id") "_id" = true ∧
    ("Role", pkRange 1) ∈
      compute_pk_values [("Role", ["role_id"]), ("Investigatorship", ["role_id"])] 1 ∧
    strLower "Role" = strLower (strDropLast (strLower "role_id") 3) ∧
    ∀ m : Nat, Value.str "Principal Investigator" ≠ Value.int m :=
  ⟨rfl, rfl, by decide, rfl, fun m h => by simp at h⟩

/-- Claim C1, amended: for a synthesized cell of a column of the form
`<ref>_id`, if an entity whose name matches `ref` case-insensitively has a
non-empty primary-key sequence, the generated value is an integer of that
sequence — unless the cell is intercepted by the hard-coded
investigator-role rule (entity lowercasing to `investigatorship`, or entity
`Contributorship` with column `roletype`, with `role` occurring in the
column name), which emits a role string instead (see the counterexample). -/
theorem c1_amended (es : List (String × List String))
    (persons : List (String × PersonRec)) (rows : Nat) (ent : String)
    (cols : List String) (row : List Value) (idx : Nat) (c : String) (g : Nat → Nat)
    (v : Value)
    (hok : synthCell (compute_pk_values es rows) persons rows ent cols row idx c g = .ok v)
    (hid : strEnds (strLower c) "_id" = true)
    (hrole : ((strLower ent == "investigatorship"
        || (ent == "Contributorship" && strLower c == "roletype"))
        && hasSub "role" (strLower c)) = false) :
    ∀ k l, (k, l) ∈ compute_pk_values es rows →
      strLower k = strLower (strDropLast (strLower c) 3) → l ≠ [] →
      ∃ m : Nat, v = .int m ∧ m ∈ l := by
  intro k l hkl hmatch hlne
  have hshape := compute_pk_shape es rows
  have hl : l = pkRange rows := by
    rcases hshape (k, l) hkl with h | h
    · exact absurd h hlne
    · exact h
  have hrows : 1 ≤ rows := by
    by_contra hc
    have hz : rows = 0 := by omega
    rw [hz] at hl
    exact hlne (by simpa [pkRange] using hl)
  subst hl
  simp only [synthCell] at hok
  unfold scR1 at hok
  split at hok
  case isTrue h1 =>
    injection hok with hv
    simp only [Bool.and_eq_true, beq_iff_eq, Bool.not_eq_true',
      List.isEmpty_eq_false] at h1
    obtain ⟨hcl, hne2⟩ := h1
    have hsome := optGetD_nonempty _ hne2
    have hm := dictGet_mem _ _ _ hsome
    rcases hshape _ hm with hc2 | hc2
    · exact absurd hc2 hne2
    · have hc3 : (dictGet (compute_pk_values es rows) ent).getD [] = pkRange rows := hc2
      refine ⟨_, hv.symm, ?_⟩
      rw [hc3]
      exact getD_mem _ _ _ (by rw [pkRange_length]; exact Nat.mod_lt idx (by omega))
  unfold scR2 at hok
  split at hok
  case isTrue h2 =>
    exfalso
    simp only [Bool.and_eq_true, beq_iff_eq] at h2
    obtain ⟨-, hcl⟩ := h2
    rw [hcl] at hid
    exact absurd hid (by decide)
  unfold scR3 at hok
  split at hok
  case isTrue h3 =>
    exfalso
    simp only [Bool.and_eq_true, Bool.or_eq_true, beq_iff_eq] at h3
    obtain ⟨-, hcl⟩ := h3
    rcases hcl with hcl | hcl <;> rw [hcl] at hid <;> exact absurd hid (by decide)
  unfold scR4 at hok
  split at hok
  case isTrue h4 =>
    exfalso
    simp only [Bool.and_eq_true, Bool.or_eq_true, beq_iff_eq] at h4
    obtain ⟨-, hcl⟩ := h4
    rcases hcl with hcl | hcl <;> rw [hcl] at hid <;> exact absurd hid (by decide)
  unfold scR5 at hok
  split at hok
  case isTrue h5 =>
    exfalso
    simp only [Bool.and_eq_true, beq_iff_eq] at h5
    obtain ⟨-, hcl⟩ := h5
    rw [hcl] at hid
    exact absurd hid (by decide)
  unfold scR6 at hok
  split at hok
  case isTrue h6 =>
    exfalso
    simp only [Bool.and_eq_true, beq_iff_eq] at h6
    obtain ⟨-, hcl⟩ := h6
    rw [hcl] at hid
    exact absurd hid (by decide)
  unfold scR7 at hok
  split at hok
  case isTrue h7 =>
    injection hok with hv
    exact ⟨_, hv.symm, pick_pk_mem _ _ _ _ hshape hrows⟩
  unfold scR8 at hok
  split at hok
  case isTrue h8 =>
    dsimp only at hok
    injection hok with hv
    exact ⟨_, hv.symm,
      studentRetry_mem _ _ _ _ _ _ hshape hrows (pick_pk_mem _ _ _ _ hshape hrows)⟩
  unfold scR9 at hok
  split at hok
  case isTrue h9 =>
    exfalso
    simp only [Bool.and_eq_true, beq_iff_eq] at h9
    obtain ⟨-, hcl⟩ := h9
    rw [hcl] at hid
    exact absurd hid (by decide)
  unfold scR10 at hok
  split at hok
  case isTrue h10 =>
    exfalso
    simp only [Bool.and_eq_true, beq_iff_eq] at h10
    obtain ⟨-, hcl⟩ := h10
    rw [hcl] at hid
    exact absurd hid (by decide)
  unfold scR11 at hok
  split at hok
  case isTrue h11 =>
    exfalso
    simp only [Bool.and_eq_true, beq_iff_eq] at h11
    obtain ⟨-, hcl⟩ := h11
    rw [hcl] at hid
    exact absurd hid (by decide)
  unfold scR12 at hok
  split at hok
  case isTrue h12 =>
    exfalso
    simp only [Bool.and_eq_true, beq_iff_eq] at h12
    obtain ⟨-, hcl⟩ := h12
    rw [hcl] at hid
    exact absurd hid (by decide)
  unfold scR13 at hok
  split at hok
  case isTrue h13 =>
    exfalso
    simp only [Bool.and_eq_true, beq_iff_eq] at h13
    obtain ⟨-, hcl⟩ := h13
    rw [hcl] at hid
    exact absurd hid (by decide)
  unfold scR14 at hok
  split at hok
  case isTrue h14 =>
    exfalso
    simp only [Bool.and_eq_true, beq_iff_eq] at h14
    obtain ⟨-, hcl⟩ := h14
    rw [hcl] at hid
    exact absurd hid (by decide)
  unfold scR15 at hok
  split at hok
  case isTrue h15 =>
    exfalso
    rw [h15] at hrole
    simp at hrole
  unfold scR16 at hok
  split at hok
  case isTrue h16 =>
    exfalso
    simp only [Bool.and_eq_true, beq_iff_eq] at h16
    obtain ⟨-, hcl⟩ := h16
    rw [hcl] at hid
    exact absurd hid (by decide)
  unfold scR17 at hok
  split at hok
  case isTrue h17 =>
    exfalso
    simp only [Bool.and_eq_true, beq_iff_eq] at h17
    obtain ⟨-, hcl⟩ := h17
    rw [hcl] at hid
    exact absurd hid (by decide)
  unfold scR18 at hok
  split at hok
  case isTrue h18 =>
    exfalso
    simp only [Bool.and_eq_true, beq_iff_eq] at h18
    obtain ⟨-, hcl⟩ := h18
    rw [hcl] at hid
    exact absurd hid (by decide)
  unfold scR19 at hok
  split at hok
  case isTrue h19 =>
    exfalso
    simp only [Bool.and_eq_true, beq_iff_eq] at h19
    obtain ⟨-, hcl⟩ := h19
    rw [hcl] at hid
    exact absurd hid (by decide)
  unfold scR20 at hok
  split at hok
  case isTrue h20 =>
    exfalso
    simp only [Bool.and_eq_true, beq_iff_eq] at h20
    obtain ⟨-, hcl⟩ := h20
    rw [hcl] at hid
    exact absurd hid (by decide)
  unfold scR21 at hok
  split at hok
  case isTrue h21 =>
    exfalso
    simp only [Bool.and_eq_true, beq_iff_eq] at h21
    obtain ⟨-, hcl⟩ := h21
    rw [hcl] at hid
    exact absurd hid (by decide)
  unfold scR22 at hok
  split at hok
  case isTrue h22 =>
    exfalso
    simp only [Bool.and_eq_true, beq_iff_eq] at h22
    obtain ⟨-, hcl⟩ := h22
    rw [hcl] at hid
    exact absurd hid (by decide)
  unfold scR23 at hok
  split at hok
  case isTrue h23 => exact Except.noConfusion hok
  unfold scR24 at hok
  split at hok
  case isTrue h24 =>
    exfalso
    simp only [Bool.and_eq_true, beq_iff_eq] at h24
    obtain ⟨-, hcl⟩ := h24
    rw [hcl] at hid
    exact absurd hid (by decide)
  unfold scR25 at hok
  split at hok
  case isTrue h25 => exact Except.noConfusion hok
  unfold scR26 at hok
  split at hok
  case isTrue h26 =>
    exfalso
    simp only [Bool.and_eq_true, beq_iff_eq] at h26
    obtain ⟨-, hcl⟩ := h26
    rw [hcl] at hid
    exact absurd hid (by decide)
  unfold scR27 at hok
  split at hok
  case isTrue h27 =>
    exfalso
    simp only [Bool.and_eq_true, beq_iff_eq] at h27
    obtain ⟨-, hcl⟩ := h27
    rw [hcl] at hid
    exact absurd hid (by decide)
  unfold scR28 at hok
  split at hok
  case isTrue h28 =>
    exfalso
    simp only [Bool.or_eq_true, beq_iff_eq] at h28
    rcases h28 with (hcl | hcl) | hcl <;> rw [hcl] at hid <;> exact absurd hid (by decide)
  unfold scR29 at hok
  split at hok
  case isTrue h29 =>
    injection hok with hv
    refine ⟨_, hv.symm, ?_⟩
    apply pick_pk_for_ref_mem _ _ _ _ hshape
    exact ⟨(k, pkRange rows), hkl, hmatch, pkRange_ne_nil rows hrows⟩
  case isFalse h30 => exact absurd hid h30

theorem c1_witness :
    ∃ m : Nat,
      Value.int ((choiceD 0 (pkRange 1) 0 : Nat) : Int) = .int m ∧ m ∈ pkRange 1 :=
  c1_amended [("Journal", ["journal_id"]), ("Document", ["document_id", "journal_id"])]
    [] 1 "Document" ["document_id", "journal_id"] [Value.int 1] 1 "journal_id"
    (fun _ => 0) (Value.int ((choiceD 0 (pkRange 1) 0 : Nat) : Int)) rfl rfl rfl
    "Journal" (pkRange 1) (by decide) rfl (by decide)

-- ---------------- end-to-end scenario (C6) ----------------

/-- Claim C6: for the diagram with entity `Person { person_id }`, entity
`Document { document_id }` and the single edge `Document ||--o\x7b Person`,
running with `rows = 3` succeeds for every oracle; `person.csv` has header
`person_id,document_id` (the FK was injected into the child `Person`),
exactly 3 data rows, and every `document_id` value is drawn from `1..3`. -/
theorem c6_scenario (o : Oracle) :
    ∃ fs : List CsvFile,
      generate_csvs [("Person", ["person_id"]), ("Document", ["document_id"])]
        [Edge.mk "Document" "||--o\x7b" "Person"] 3 o = .ok fs ∧
      ∃ pf ∈ fs, pf.name = "person.csv" ∧
        pf.header = ["person_id", "document_id"] ∧ pf.rows.length = 3 ∧
        ∀ r ∈ pf.rows, ∃ d : Nat, r.getD 1 (.str "") = .int d ∧ d ∈ [1, 2, 3] := by
  refine ⟨[CsvFile.mk "person.csv" ["person_id", "document_id"]
      [[.int 1, .int ((choiceD (o.cellDraw "Person" 0 1 0) (pkRange 3) 0 : Nat) : Int)],
       [.int 2, .int ((choiceD (o.cellDraw "Person" 1 1 0) (pkRange 3) 0 : Nat) : Int)],
       [.int 3, .int ((choiceD (o.cellDraw "Person" 2 1 0) (pkRange 3) 0 : Nat) : Int)]],
    CsvFile.mk "document.csv" ["document_id"] [[.int 1], [.int 2], [.int 3]]],
    rfl, ?_⟩
  refine ⟨_, List.mem_cons_self _ _, rfl, rfl, rfl, ?_⟩
  intro r hr
  have hne : pkRange 3 ≠ [] := by decide
  simp only [List.mem_cons, List.not_mem_nil, or_false] at hr
  rcases hr with rfl | rfl | rfl
  · exact ⟨_, rfl, choiceD_mem _ _ _ hne⟩
  · exact ⟨_, rfl, choiceD_mem _ _ _ hne⟩
  · exact ⟨_, rfl, choiceD_mem _ _ _ hne⟩
